import Mathlib

/-!
Shallow embedding of the satellity user/session authentication core
(internal/models/user.go, internal/models/session.go, internal/models/context.go,
internal/configs) and theorems checking the specification's claims against it.

External libraries (encoding/hex, crypto/x509, bcrypt, jwt-go, gofrs/uuid) are
modelled either concretely (hex, canonical UUID syntax) or as oracle parameters
bundled in `Ext` (PKIX parsing, bcrypt, the repository's validateEmailFormat,
which is not among the provided sources). Database access is modelled by an
environment holding the table contents plus injectable query/exec faults, and
every storage access is recorded in an effect trace, so that "no storage
access" and "no mutation" become provable statements.
-/

namespace Satellity

/-- Go byte length of a string (`len(s)` in Go): the UTF-8 byte size. -/
def goLen (s : String) : Nat := s.utf8ByteSize

/-- `unicode.IsSpace` as used by `strings.TrimSpace`, for the Latin-1 range
(tab, newline, vertical tab, form feed, carriage return, space, next line,
no-break space); White_Space code points above Latin-1 are not modelled. -/
def goIsSpace (c : Char) : Bool :=
  c == ' ' || c == '\t' || c == '\n' || c == '\x0b' || c == '\x0c' || c == '\r' ||
  c == '\x85' || c == '\xa0'

/-- `strings.TrimSpace`: drop leading and trailing white space. -/
def goTrim (s : String) : String :=
  String.mk (((s.data.dropWhile goIsSpace).reverse.dropWhile goIsSpace).reverse)

/-- `strings.ToLower`, for the ASCII range (the only case folding these
claims exercise). -/
def goToLower (s : String) : String :=
  String.mk (s.data.map Char.toLower)

/-- `encoding/hex`: value of one hex digit, as in the Go standard library
(accepts 0-9, a-f, A-F). -/
def hexDigitVal (c : Char) : Option Nat :=
  if '0' ≤ c ∧ c ≤ '9' then some (c.toNat - '0'.toNat)
  else if 'a' ≤ c ∧ c ≤ 'f' then some (c.toNat - 'a'.toNat + 10)
  else if 'A' ≤ c ∧ c ≤ 'F' then some (c.toNat - 'A'.toNat + 10)
  else none

/-- `encoding/hex.DecodeString` on the character list: pairs of hex digits
become bytes; odd length or a non-hex digit is an error (`none`). -/
def hexDecodeList : List Char → Option (List Nat)
  | [] => some []
  | [_] => none
  | c1 :: c2 :: rest =>
    match hexDigitVal c1, hexDigitVal c2, hexDecodeList rest with
    | some h, some l, some tail => some ((h * 16 + l) :: tail)
    | _, _, _ => none

/-- `encoding/hex.DecodeString`. -/
def hexDecode (s : String) : Option (List Nat) := hexDecodeList s.data

/-- A character that `encoding/hex` accepts as a digit. -/
def isHexDigitChar (c : Char) : Bool := (hexDigitVal c).isSome

/-- Canonical (36-character, hyphens at positions 8, 13, 18, 23) UUID syntax,
the format of every identifier this repository generates via `uuid.NewV4`. -/
def uuidFormatOk (cs : List Char) : Bool :=
  cs.length == 36 &&
  (List.range 36).all fun i =>
    match cs.get? i with
    | none => false
    | some c =>
      if i == 8 || i == 13 || i == 18 || i == 23 then c == '-' else isHexDigitChar c

/-- The string form of `uuid.Nil`. -/
def nilUUID : String := "00000000-0000-0000-0000-000000000000"

/-- `gofrs/uuid.FromString` followed by `.String()`, restricted to the
canonical textual format (the only format occurring in this repository):
parses the 36-character form and renders it back lowercased; `none` on a
parse error. -/
def uuidParseCanonical (s : String) : Option String :=
  if uuidFormatOk s.data then some (String.mk (s.data.map Char.toLower)) else none

/-- The guard used by `readSession`: `id, _ := uuid.FromString(s)` ignores the
parse error (leaving the zero UUID), then compares `id.String()` with
`uuid.Nil.String()`; so the guard fires when `s` fails to parse or parses to
the nil UUID. -/
def uuidIsNilOrInvalid (s : String) : Bool :=
  match uuidParseCanonical s with
  | none => true
  | some c => c == nilUUID

/-- `sql.NullString`: a string plus a validity flag (invalid means SQL NULL). -/
structure NullString where
  string : String
  valid : Bool
deriving DecidableEq, Repr

/-- The `User` row/struct of internal/models/user.go, including the transient
`SessionID` field (the unexported `isNew` bookkeeping flag plays no role in
the modelled operations and is omitted). Timestamps are abstract `Nat` ticks. -/
structure User where
  userID : String
  email : NullString
  username : String
  nickname : String
  biography : String
  encryptedPassword : NullString
  githubID : NullString
  groupsCount : Int
  createdAt : Nat
  updatedAt : Nat
  sessionID : String
deriving DecidableEq, Repr

/-- The `Session` row/struct of internal/models/session.go. -/
structure Session where
  sessionID : String
  userID : String
  secret : String
  createdAt : Nat
deriving DecidableEq, Repr

/-- Modelled from the spec: the error kinds of the `satellity/internal/session`
package, whose source is not among the provided files; only its constructors
(`BadDataError`, `PasswordTooSimpleError`, `IdentityNonExistError`,
`InvalidPasswordError`, `ServerError`, `TransactionError`) are called from the
provided sources. Spec section 7 names them BadCredentialFormat,
PasswordTooSimple, IdentityNotFound, InvalidPassword and PersistenceFailure. -/
inductive SessionErr where
  | badData
  | passwordTooSimple
  | identityNonExist
  | invalidPassword
  | server (msg : String)
  | transaction (msg : String)
deriving DecidableEq, Repr

/-- A short description of an error, standing in for Go's `err.Error()` when an
error value is re-wrapped. -/
def SessionErr.describe : SessionErr → String
  | .badData => "bad data"
  | .passwordTooSimple => "password too simple"
  | .identityNonExist => "identity does not exist"
  | .invalidPassword => "invalid password"
  | .server m => m
  | .transaction m => m

/-- An error escaping a transaction callback: either a typed `session.Error`
or a raw storage-layer error (the Go code distinguishes them with a type
assertion `err.(session.Error)`). -/
inductive CallbackErr where
  | sess (e : SessionErr)
  | raw (m : String)
deriving DecidableEq, Repr

/-- One storage access, as issued by the Go code (SELECT, INSERT or UPDATE
statements against the users and sessions tables). -/
inductive Effect where
  | queryUsers
  | querySessions
  | insertUser (u : User)
  | insertSession (s : Session)
  | updateProfile (userID nickname biography : String) (updatedAt : Nat)
deriving DecidableEq, Repr

/-- Whether an effect is a read (a SELECT). -/
def Effect.isRead : Effect → Bool
  | .queryUsers => true
  | .querySessions => true
  | _ => false

/-- The two tables the modelled code touches. -/
structure Database where
  users : List User
  sessions : List Session
deriving DecidableEq, Repr

/-- Apply one storage effect to the database state. An update of the profile
columns rewrites exactly the nickname, biography and updated_at columns of the
rows whose user_id matches, as the UPDATE statement in `UpdateProfile` does. -/
def applyEffect (db : Database) : Effect → Database
  | .queryUsers => db
  | .querySessions => db
  | .insertUser u => { db with users := db.users ++ [u] }
  | .insertSession s => { db with sessions := db.sessions ++ [s] }
  | .updateProfile id nick bio t =>
    { db with
      users := db.users.map fun u =>
        if u.userID == id then { u with nickname := nick, biography := bio, updatedAt := t } else u }

/-- Apply a trace of storage effects in order. -/
def runEffects (db : Database) (effs : List Effect) : Database := effs.foldl applyEffect db

/-- The database as seen by one request: the table contents plus injectable
storage faults (a query fault on the users table, a query fault on the
sessions table, and an exec fault for INSERT/UPDATE statements), standing for
connectivity or storage errors from the `durable` layer. -/
structure DBEnv where
  db : Database
  userQueryFault : Option String
  sessionQueryFault : Option String
  execFault : Option String
deriving DecidableEq, Repr

/-- The public keys `crypto/x509.ParsePKIXPublicKey` can return, tagged by the
concrete Go type; the payload distinguishes distinct keys. -/
inductive PublicKey where
  | ecdsa (keyData : Nat)
  | rsa (keyData : Nat)
  | ed25519 (keyData : Nat)
deriving DecidableEq, Repr

/-- Whether the key is the `*ecdsa.PublicKey` case of the type switch. -/
def PublicKey.isEcdsa : PublicKey → Bool
  | .ecdsa _ => true
  | _ => false

/-- Oracle bundle for the external collaborators: `crypto/x509` PKIX parsing,
`bcrypt` hashing and comparison (compare returns `true` when
`bcrypt.CompareHashAndPassword` returns nil), and the repository's
`validateEmailFormat` (see `validateEmailFormat` below). -/
structure Ext where
  parsePKIX : List Nat → Option PublicKey
  bcryptHash : String → Option String
  bcryptCompare : String → String → Bool
  emailCheck : String → Option SessionErr

/-- Modelled from the spec: `validateEmailFormat`, called by `CreateUser`, is
repository code not among the provided sources; the spec says only "trim and
validate email format" (trimming happens at the call site), so the validator
itself is kept abstract as the `emailCheck` oracle: `none` means the email is
syntactically valid, `some e` is the returned error. -/
def validateEmailFormat (ext : Ext) (email : String) : Option SessionErr :=
  ext.emailCheck email

/-- `findUserByID` (user.go): a hit against the users table after the
fail-fast UUID syntax guard (`uuid.FromString(id)` erroring returns
`nil, nil` without a query); the SELECT compares `user_id` with the original
string. -/
def findUserByID (env : DBEnv) (id : String) : Except String (Option User) × List Effect :=
  match uuidParseCanonical id with
  | none => (.ok none, [])
  | some _ =>
    match env.userQueryFault with
    | some m => (.error m, [.queryUsers])
    | none => (.ok (env.db.users.find? fun u => u.userID == id), [.queryUsers])

/-- `findUserByIdentity` (user.go): `SELECT ... WHERE username=$1 OR email=$1
LIMIT 1`. SQL string equality is case sensitive, and a NULL email column never
compares equal, hence the `valid` conjunct. -/
def findUserByIdentity (env : DBEnv) (identity : String) :
    Except String (Option User) × List Effect :=
  match env.userQueryFault with
  | some m => (.error m, [.queryUsers])
  | none =>
    (.ok (env.db.users.find? fun u =>
      u.username == identity || (u.email.valid && u.email.string == identity)),
     [.queryUsers])

/-- `ReadUserByUsernameOrEmail` (user.go): trim and lower-case the identity,
return `nil, nil` when its byte length is below 3, otherwise run
`findUserByIdentity` in a transaction, wrapping any error as a
`TransactionError`. -/
def readUserByUsernameOrEmail (env : DBEnv) (identity : String) :
    Except SessionErr (Option User) × List Effect :=
  let id := goToLower (goTrim identity)
  if goLen id < 3 then (.ok none, [])
  else
    match findUserByIdentity env id with
    | (.error m, effs) => (.error (.transaction m), effs)
    | (.ok u, effs) => (.ok u, effs)

/-- `readSession` (session.go): both ids pass through
`uuid.FromString`-ignoring-the-error and are rejected (as `nil, nil`, with no
query) when they fail to parse or equal the nil UUID; then
`SELECT ... WHERE user_id=$1 AND session_id=$2` with the original strings. -/
def readSession (env : DBEnv) (uid sid : String) :
    Except String (Option Session) × List Effect :=
  if uuidIsNilOrInvalid uid then (.ok none, [])
  else if uuidIsNilOrInvalid sid then (.ok none, [])
  else
    match env.sessionQueryFault with
    | some m => (.error m, [.querySessions])
    | none =>
      (.ok (env.db.sessions.find? fun s => s.userID == uid && s.sessionID == sid),
       [.querySessions])

/-- `validateAndEncryptPassword` (user.go): `PasswordTooSimpleError` below 8
bytes, `BadDataError` above 64 bytes, otherwise bcrypt with cost 10 (a bcrypt
failure becomes a `ServerError`). -/
def validateAndEncryptPassword (ext : Ext) (password : String) : Except SessionErr String :=
  if goLen password < 8 then .error .passwordTooSimple
  else if goLen password > 64 then .error .badData
  else
    match ext.bcryptHash password with
    | none => .error (.server "bcrypt")
    | some h => .ok h

/-- Fresh identifiers standing for the `uuid.Must(uuid.NewV4())` calls of one
request, passed explicitly to keep the embedding deterministic. -/
structure FreshIDs where
  userID : String
  sessionID : String
deriving DecidableEq, Repr

/-- `User.addSession` (session.go): builds the session row and INSERTs it,
wrapping an exec fault as a `TransactionError`. Returns the row and the
effect. -/
def addSession (env : DBEnv) (u : User) (secret : String) (freshSessionID : String)
    (now : Nat) : Except SessionErr Session × List Effect :=
  let s : Session := { sessionID := freshSessionID, userID := u.userID, secret := secret,
                       createdAt := now }
  match env.execFault with
  | some m => (.error (.transaction m), [])
  | none => (.ok s, [.insertSession s])

/-- `CreateUser` (user.go): validate the session secret (hex decode, PKIX
parse, `*ecdsa.PublicKey` type switch — `BadDataError` on any failure), trim
and validate the email, trim the username and require at least 3 bytes,
default the nickname to the username, validate and hash the password, then in
one transaction INSERT the user row and the bound session row. A failed
transaction is rolled back (write effects discarded); an error escaping it
that is not a `session.Error` is wrapped as a `TransactionError`. -/
def createUser (ext : Ext) (env : DBEnv)
    (email username nickname biography password sessionSecret : String)
    (fresh : FreshIDs) (now : Nat) : Except SessionErr User × List Effect :=
  match hexDecode sessionSecret with
  | none => (.error .badData, [])
  | some data =>
    match ext.parsePKIX data with
    | none => (.error .badData, [])
    | some key =>
      if !key.isEcdsa then (.error .badData, [])
      else
        let email := goTrim email
        match validateEmailFormat ext email with
        | some e => (.error e, [])
        | none =>
          let username := goTrim username
          if goLen username < 3 then (.error .badData, [])
          else
            let nickname := goTrim nickname
            let nickname := if nickname == "" then username else nickname
            match validateAndEncryptPassword ext password with
            | .error e => (.error e, [])
            | .ok hashed =>
              let user : User :=
                { userID := fresh.userID
                  email := { string := email, valid := true }
                  username := username
                  nickname := nickname
                  biography := biography
                  encryptedPassword := { string := hashed, valid := true }
                  githubID := { string := "", valid := false }
                  groupsCount := 0
                  createdAt := now
                  updatedAt := now
                  sessionID := "" }
              match env.execFault with
              | some m => (.error (.transaction m), [])
              | none =>
                match addSession env user sessionSecret fresh.sessionID now with
                | (.error e, _) => (.error e, [])
                | (.ok s, effs) =>
                  ({ user with sessionID := s.sessionID } |> .ok,
                   .insertUser user :: effs)

/-- `CreateSession` (session.go): validate the session secret exactly as
`CreateUser` does, look the user up by identity (`IdentityNonExistError` when
none), compare the bcrypt hash (`InvalidPasswordError` on mismatch), then in
one transaction add a session row; any error escaping that transaction is
wrapped as a `TransactionError` (unconditionally, including an already-typed
one). -/
def createSession (ext : Ext) (env : DBEnv) (identity password sessionSecret : String)
    (freshSessionID : String) (now : Nat) : Except SessionErr User × List Effect :=
  match hexDecode sessionSecret with
  | none => (.error .badData, [])
  | some data =>
    match ext.parsePKIX data with
    | none => (.error .badData, [])
    | some key =>
      if !key.isEcdsa then (.error .badData, [])
      else
        match readUserByUsernameOrEmail env identity with
        | (.error e, effs) => (.error e, effs)
        | (.ok none, effs) => (.error .identityNonExist, effs)
        | (.ok (some user), effs) =>
          if !ext.bcryptCompare user.encryptedPassword.string password then
            (.error .invalidPassword, effs)
          else
            match addSession env user sessionSecret freshSessionID now with
            | (.error e, _) => (.error (.transaction e.describe), effs)
            | (.ok s, effs2) => (.ok { user with sessionID := s.sessionID }, effs ++ effs2)

/-- The signing-method families of jwt-go relevant to the
`token.Method.(*jwt.SigningMethodECDSA)` type assertion. -/
inductive SigningMethodFamily where
  | ecdsa
  | hmac
  | rsa
  | rsapss
  | unsigned
deriving DecidableEq, Repr

/-- A structurally well-formed jwt token as jwt-go's parser hands it to the
keyfunc: the declared signing-method family, the map claims (values already
coerced to the strings `fmt.Sprint` would produce), whether the registered
claims (exp/nbf/iat) validate, and the signature check as a predicate on the
verification key (an abstraction of `Method.Verify`; jwt-go's ECDSA verifier
additionally rejects any key that is not an `*ecdsa.PublicKey`, which
`authenticateUser` models explicitly). -/
structure Token where
  method : SigningMethodFamily
  claims : List (String × String)
  claimsValid : Bool
  sigValid : PublicKey → Bool

/-- A bearer token string as `jwt.Parse` sees it: either malformed (parse
error before the keyfunc runs) or a well-formed token. -/
inductive ParseInput where
  | malformed
  | wellFormed (t : Token)

/-- `fmt.Sprint(claims[k])` for map claims: the stored string, or the
rendering of a nil interface when the key is absent. -/
def claimString (claims : List (String × String)) (k : String) : String :=
  match claims.find? fun p => p.1 == k with
  | some p => p.2
  | none => "<nil>"

/-- The RESOLVE transaction body inside `AuthenticateUser`'s keyfunc: look the
user up by uid (absent user ends the callback early with the outer `user` and
`s` still nil), then the session by (uid, sid) (absent session ends it with
`user` set and `s` nil); when both are found the outer user gets the session
id attached. Returns the final values of the closed-over `user` and `s`
variables. -/
def resolveTx (env : DBEnv) (uid sid : String) :
    Except CallbackErr (Option User × Option Session) × List Effect :=
  match findUserByID env uid with
  | (.error m, effs) => (.error (.raw m), effs)
  | (.ok none, effs) => (.ok (none, none), effs)
  | (.ok (some u), effs) =>
    match readSession env uid sid with
    | (.error m, effs2) => (.error (.raw m), effs ++ effs2)
    | (.ok none, effs2) => (.ok (some u, none), effs ++ effs2)
    | (.ok (some s), effs2) =>
      (.ok (some { u with sessionID := s.sessionID }, some s), effs ++ effs2)

/-- The outcome of a Go function call: a returned value, or a runtime panic
(nil-pointer dereference). -/
inductive GoResult (α : Type) where
  | ok (a : α)
  | panic
deriving DecidableEq, Repr

/-- `AuthenticateUser` (user.go). The keyfunc given to `jwt.Parse` checks the
map-claims cast (always succeeds for the default parser), requires the
`*jwt.SigningMethodECDSA` method (returning `nil, nil` otherwise, which makes
verification fail), runs the RESOLVE transaction (an escaping error is
returned typed when it is a `session.Error`, else wrapped as a
`TransactionError` — and a keyfunc error makes `jwt.Parse` return that error),
then hex-decodes the stored session secret and PKIX-parses it into the
verification key. After `jwt.Parse`, ANY error — including a wrapped
transaction fault — and any invalid token yield `nil, nil`. When the RESOLVE
transaction finds no user or no session, the callback returns nil and the
subsequent `s.Secret` dereferences a nil `*Session`: a runtime panic. -/
def authenticateUser (ext : Ext) (env : DBEnv) (input : ParseInput) :
    GoResult (Option User × Option SessionErr) × List Effect :=
  match input with
  | .malformed => (.ok (none, none), [])
  | .wellFormed tok =>
    if tok.method = .ecdsa then
      let uid := claimString tok.claims "uid"
      let sid := claimString tok.claims "sid"
      match resolveTx env uid sid with
      | (.error _, effs) => (.ok (none, none), effs.filter (·.isRead))
      | (.ok (_, none), effs) => (.panic, effs)
      | (.ok (user, some s), effs) =>
        match hexDecode s.secret with
        | none => (.ok (none, none), effs)
        | some pkix =>
          match ext.parsePKIX pkix with
          | none => (.ok (none, none), effs)
          | some key =>
            let sigOk := key.isEcdsa && tok.sigValid key
            if tok.claimsValid && sigOk then (.ok (user, none), effs)
            else (.ok (none, none), effs)
    else (.ok (none, none), [])

/-- `User.UpdateProfile` (user.go): trim both arguments; when both are empty
return nil at once (no statement issued, receiver untouched); otherwise
overwrite the non-empty fields on the receiver, stamp updated_at, and UPDATE
exactly the (nickname, biography, updated_at) columns of the receiver's row.
Returns the Go error, the receiver's final state and the effect trace. -/
def updateProfile (env : DBEnv) (u : User) (nickname biography : String) (now : Nat) :
    Except SessionErr Unit × User × List Effect :=
  let nickname := goTrim nickname
  let biography := goTrim biography
  if goLen nickname == 0 && goLen biography == 0 then (.ok (), u, [])
  else
    let u := if nickname != "" then { u with nickname := nickname } else u
    let u := if biography != "" then { u with biography := biography } else u
    let u := { u with updatedAt := now }
    match env.execFault with
    | some m => (.error (.transaction m), u, [])
    | none => (.ok (), u, [.updateProfile u.userID u.nickname u.biography now])

/-- The two role constants of user.go. -/
def userRoleAdmin : String := "admin"

/-- The two role constants of user.go. -/
def userRoleMember : String := "member"

/-- An empty `map[string]bool` under its membership view. -/
def emptySet : String → Bool := fun _ => false

/-- `m[k] = true`: insert a key into a `map[string]bool` membership view. -/
def setInsert (m : String → Bool) (k : String) : String → Bool :=
  fun x => if x == k then true else m x

/-- The loop in `configs.Init` that fills `OperatorSet` from the configured
operator list. -/
def mkOperatorSet (ops : List String) : String → Bool :=
  ops.foldl setInsert emptySet

/-- The slice of `configs.Option` that role resolution reads: the configured
operator emails and the set `Init` builds from them. -/
structure AppConfig where
  operators : List String
  operatorSet : String → Bool

/-- The `OperatorSet`-building part of `configs.Init` (part_000): the rest of
`Init` reads and unmarshals the YAML file, which is outside the data model. -/
def initAppConfig (operators : List String) : AppConfig :=
  { operators := operators, operatorSet := mkOperatorSet operators }

/-- `User.Role` (user.go): admin exactly when `OperatorSet[u.Email.String]`
(the raw `String` field of the `sql.NullString`, which is empty for a user
without an email), member otherwise. -/
def Role (cfg : AppConfig) (u : User) : String :=
  if cfg.operatorSet u.email.string then userRoleAdmin else userRoleMember

/-- Agreement of two user values on every field other than nickname,
biography and updated_at — the frame `UpdateProfile` must preserve. -/
def User.sameExceptProfile (a b : User) : Prop :=
  a.userID = b.userID ∧ a.email = b.email ∧ a.username = b.username ∧
  a.encryptedPassword = b.encryptedPassword ∧ a.githubID = b.githubID ∧
  a.groupsCount = b.groupsCount ∧ a.createdAt = b.createdAt ∧ a.sessionID = b.sessionID

/-- The condition under which the shared session-secret validation of
`CreateUser` and `CreateSession` rejects its input: not valid hex, or the
bytes fail PKIX parsing, or the parsed key is not an `*ecdsa.PublicKey`. -/
def secretRejected (ext : Ext) (s : String) : Prop :=
  hexDecode s = none ∨
  ∃ d, hexDecode s = some d ∧
    (ext.parsePKIX d = none ∨ ∃ k, ext.parsePKIX d = some k ∧ k.isEcdsa = false)

/-! Concrete fixtures used to evaluate the modelled operations on explicit
inputs. -/

/-- A concrete oracle bundle: the byte `0x00` alone parses as an ECDSA key,
`0x01` alone as an RSA key, other blobs fail PKIX parsing; bcrypt is a
prefixing hash; every email is accepted. -/
def extW : Ext where
  parsePKIX := fun d =>
    if d == [0] then some (.ecdsa 0) else if d == [1] then some (.rsa 1) else none
  bcryptHash := fun p => some ("bc:" ++ p)
  bcryptCompare := fun h p => h == "bc:" ++ p
  emailCheck := fun _ => none

/-- A concrete user id in canonical UUID form. -/
def uidW : String := "11111111-1111-1111-1111-111111111111"

/-- A concrete session id in canonical UUID form. -/
def sidW : String := "22222222-2222-2222-2222-222222222222"

/-- A stored user row whose credentials are all lower case. -/
def userW : User where
  userID := uidW
  email := { string := "alice@example.com", valid := true }
  username := "alice"
  nickname := "Alice"
  biography := "hi"
  encryptedPassword := { string := "bc:password1", valid := true }
  githubID := { string := "", valid := false }
  groupsCount := 0
  createdAt := 0
  updatedAt := 0
  sessionID := ""

/-- A stored session row owned by `userW`, holding the hex secret "00". -/
def sessW : Session where
  sessionID := sidW
  userID := uidW
  secret := "00"
  createdAt := 0

/-- A database holding exactly `userW` and `sessW`. -/
def dbW : Database := { users := [userW], sessions := [sessW] }

/-- A healthy environment over `dbW`. -/
def envW : DBEnv := { db := dbW, userQueryFault := none, sessionQueryFault := none,
                      execFault := none }

/-- An environment over `dbW` whose users-table queries fail with a
connectivity fault. -/
def envFaultW : DBEnv :=
  { db := dbW, userQueryFault := some "connection refused", sessionQueryFault := none,
    execFault := none }

/-- A healthy environment over an empty database. -/
def envEmptyW : DBEnv :=
  { db := { users := [], sessions := [] }, userQueryFault := none,
    sessionQueryFault := none, execFault := none }

/-- A well-formed ECDSA-family token claiming `(uidW, sidW)` whose signature
check accepts any key. -/
def tokW : Token where
  method := .ecdsa
  claims := [("uid", uidW), ("sid", sidW)]
  claimsValid := true
  sigValid := fun _ => true

/-- The same token declared with the HMAC signing family. -/
def tokHmacW : Token where
  method := .hmac
  claims := [("uid", uidW), ("sid", sidW)]
  claimsValid := true
  sigValid := fun _ => true

/-- Fresh identifiers for one registration. -/
def freshW : FreshIDs := { userID := uidW, sessionID := sidW }

/-- The registration run used to examine identity lookup after `CreateUser`:
username "Alice" (mixed case), valid email, 9-byte password, ECDSA secret. -/
def c4RegisterRun : Except SessionErr User × List Effect :=
  createUser extW envEmptyW "a@b.cd" "Alice" "" "" "password1" "00" freshW 0

/-- The environment after committing that registration's effects. -/
def c4EnvAfter : DBEnv := { envEmptyW with db := runEffects envEmptyW.db c4RegisterRun.2 }

/-! Helper lemmas. -/

theorem goLen_eq_zero (s : String) : goLen s = 0 ↔ s = "" := by
  cases s with
  | mk data =>
    constructor
    · intro h
      have hd : data = [] := by simpa [goLen] using h
      subst hd; rfl
    · intro h
      rw [h]; rfl

theorem runEffects_cons (db : Database) (e : Effect) (es : List Effect) :
    runEffects db (e :: es) = runEffects (applyEffect db e) es := rfl

theorem runEffects_singleton (db : Database) (e : Effect) :
    runEffects db [e] = applyEffect db e := rfl

theorem applyEffect_of_read (db : Database) (e : Effect) (h : e.isRead = true) :
    applyEffect db e = db := by
  cases e <;> simp_all [Effect.isRead, applyEffect]

theorem runEffects_of_reads (db : Database) (effs : List Effect)
    (h : ∀ e ∈ effs, e.isRead = true) : runEffects db effs = db := by
  induction effs generalizing db with
  | nil => rfl
  | cons e es ih =>
    rw [runEffects_cons, applyEffect_of_read db e (h e (by simp))]
    exact ih db fun x hx => h x (by simp [hx])

theorem findUserByID_effects (env : DBEnv) (id : String) :
    ∀ e ∈ (findUserByID env id).2, e.isRead = true := by
  intro e he
  unfold findUserByID at he
  split at he
  · simp at he
  · split at he <;> simp_all [Effect.isRead]

theorem findUserByIdentity_effects (env : DBEnv) (identity : String) :
    ∀ e ∈ (findUserByIdentity env identity).2, e.isRead = true := by
  intro e he
  unfold findUserByIdentity at he
  split at he <;> simp_all [Effect.isRead]

theorem readSession_effects (env : DBEnv) (uid sid : String) :
    ∀ e ∈ (readSession env uid sid).2, e.isRead = true := by
  intro e he
  unfold readSession at he
  split at he
  · simp at he
  · split at he
    · simp at he
    · split at he <;> simp_all [Effect.isRead]

theorem readUserByUsernameOrEmail_effects (env : DBEnv) (identity : String) :
    ∀ e ∈ (readUserByUsernameOrEmail env identity).2, e.isRead = true := by
  intro e he
  simp only [readUserByUsernameOrEmail] at he
  split at he
  · simp at he
  · split at he <;> rename_i heq <;>
      exact findUserByIdentity_effects env _ e (by rw [heq]; exact he)

theorem resolveTx_effects (env : DBEnv) (uid sid : String) :
    ∀ e ∈ (resolveTx env uid sid).2, e.isRead = true := by
  intro e he
  unfold resolveTx at he
  split at he
  · rename_i heq
    exact findUserByID_effects env uid e (by rw [heq]; exact he)
  · rename_i heq
    exact findUserByID_effects env uid e (by rw [heq]; exact he)
  · rename_i heq1
    split at he <;> rename_i heq2 <;>
      (rw [List.mem_append] at he
       rcases he with he | he
       · exact findUserByID_effects env uid e (by rw [heq1]; exact he)
       · exact readSession_effects env uid sid e (by rw [heq2]; exact he))

theorem authenticateUser_effects (ext : Ext) (env : DBEnv) (input : ParseInput) :
    ∀ e ∈ (authenticateUser ext env input).2, e.isRead = true := by
  intro e he
  cases input with
  | malformed => simp [authenticateUser] at he
  | wellFormed tok =>
    simp only [authenticateUser] at he
    split at he
    · split at he
      · exact (List.mem_filter.mp he).2
      · rename_i heq
        exact resolveTx_effects env _ _ e (by rw [heq]; exact he)
      · rename_i heq
        repeat' split at he
        all_goals exact resolveTx_effects env _ _ e (by rw [heq]; exact he)
    · simp at he

theorem foldl_setInsert_mem (ops : List String) (m : String → Bool) (x : String) :
    (ops.foldl setInsert m) x = true ↔ (m x = true ∨ x ∈ ops) := by
  induction ops generalizing m with
  | nil => simp
  | cons a as ih =>
    rw [List.foldl_cons, ih]
    by_cases hxa : x = a
    · subst hxa; simp [setInsert]
    · simp [setInsert, hxa, List.mem_cons]

theorem mkOperatorSet_mem (ops : List String) (x : String) :
    mkOperatorSet ops x = true ↔ x ∈ ops := by
  unfold mkOperatorSet
  rw [foldl_setInsert_mem]
  simp [emptySet]

theorem mem_map_updateRow_of_ne {l : List User} {id nick bio : String} {t : Nat}
    {v : User} (hv : v ∈ l) (hne : v.userID ≠ id) :
    v ∈ l.map fun w =>
      if w.userID == id then { w with nickname := nick, biography := bio, updatedAt := t }
      else w := by
  refine List.mem_map.mpr ⟨v, hv, ?_⟩
  simp [hne]

theorem exists_map_updateRow_sameCore {l : List User} {id nick bio : String} {t : Nat}
    {v : User} (hv : v ∈ l) :
    ∃ w ∈ l.map fun w =>
        if w.userID == id then { w with nickname := nick, biography := bio, updatedAt := t }
        else w,
      User.sameExceptProfile w v := by
  refine ⟨_, List.mem_map_of_mem _ hv, ?_⟩
  by_cases h : (v.userID == id) = true <;> simp [h, User.sameExceptProfile]

/-! The claims. -/

/-- C6: for every well-formed bearer token whose header declares a
signing-method family other than ECDSA, `AuthenticateUser` returns the silent
not-authenticated result (nil user, nil error) — never a hard error and never
a panic — touching no storage, regardless of the token's claims, claim
validity or signature predicate. -/
theorem c6_non_ecdsa_rejected_silently (ext : Ext) (env : DBEnv) (tok : Token)
    (h : tok.method ≠ .ecdsa) :
    authenticateUser ext env (.wellFormed tok) = (.ok (none, none), []) := by
  simp [authenticateUser, h]

/-- Witness for C6: an HMAC-family token over a live database. -/
theorem c6_witness :
    tokHmacW.method ≠ SigningMethodFamily.ecdsa ∧
    authenticateUser extW envW (.wellFormed tokHmacW) = (.ok (none, none), []) :=
  ⟨by decide, c6_non_ecdsa_rejected_silently extW envW tokHmacW (by decide)⟩

/-- C7: for every pair of identifiers, if either one is the nil/zero UUID then
`readSession` returns `nil, nil` (no session, no error) without consulting
storage — even when the sessions table would fault. -/
theorem c7_nil_id_reads_nothing (env : DBEnv) (uid sid : String)
    (h : uid = nilUUID ∨ sid = nilUUID) :
    readSession env uid sid = (.ok none, []) := by
  have hnil : uuidIsNilOrInvalid nilUUID = true := by decide
  rcases h with h | h
  · subst h; simp [readSession, hnil]
  · subst h
    by_cases huid : uuidIsNilOrInvalid uid = true
    · simp [readSession, huid]
    · simp [readSession, huid, hnil]

/-- Witness for C7: the nil user id with a well-formed session id, over an
environment whose sessions table would fault if queried. -/
theorem c7_witness :
    (nilUUID = nilUUID ∨ sidW = nilUUID) ∧
    readSession { envW with sessionQueryFault := some "down" } nilUUID sidW = (.ok none, []) :=
  ⟨Or.inl rfl,
   c7_nil_id_reads_nothing { envW with sessionQueryFault := some "down" } nilUUID sidW
     (Or.inl rfl)⟩

/-- C8: with the operator set built by `configs.Init` from the configured
operator list, `Role` yields admin exactly when the user's email string is in
that list and member exactly otherwise; a user with no email (NULL, empty
string) is admin exactly when the empty string is itself a configured
operator. `Role` is a plain function of the user and the configuration. -/
theorem c8_role_iff_operator (ops : List String) (u : User) :
    (Role (initAppConfig ops) u = userRoleAdmin ↔ u.email.string ∈ ops) ∧
    (Role (initAppConfig ops) u = userRoleMember ↔ u.email.string ∉ ops) ∧
    (u.email.valid = false → u.email.string = "" →
      (Role (initAppConfig ops) u = userRoleAdmin ↔ "" ∈ ops)) := by
  refine ⟨?_, ?_, ?_⟩
  · by_cases h : u.email.string ∈ ops
    · simp [Role, initAppConfig, mkOperatorSet_mem, h]
    · simp [Role, initAppConfig, mkOperatorSet_mem, h, userRoleAdmin, userRoleMember]
  · by_cases h : u.email.string ∈ ops
    · simp [Role, initAppConfig, mkOperatorSet_mem, h, userRoleAdmin, userRoleMember]
    · simp [Role, initAppConfig, mkOperatorSet_mem, h]
  · intro _ hs
    by_cases h : u.email.string ∈ ops
    · simp [Role, initAppConfig, mkOperatorSet_mem, h, hs ▸ h]
    · rw [hs] at h
      simp [Role, initAppConfig, mkOperatorSet_mem, hs, h, userRoleAdmin, userRoleMember]

/-- Witness for C8: a configured operator email resolves to admin. -/
theorem c8_witness :
    Role (initAppConfig ["alice@example.com"]) userW = userRoleAdmin :=
  (c8_role_iff_operator ["alice@example.com"] userW).1.mpr (by decide)

/-- C1 counterexample: over a database whose users-table queries fail with a
connectivity fault, verifying a well-formed ECDSA token whose claims name an
existing user and session makes the RESOLVE transaction fail with a raw
(non-not-found) fault — yet `AuthenticateUser` returns the plain
not-authenticated result (nil user, nil error) instead of surfacing a
transaction error, so the caller cannot tell the infra fault from an auth
rejection. -/
theorem c1_counterexample :
    envFaultW.userQueryFault = some "connection refused" ∧
    resolveTx envFaultW uidW sidW = (.error (.raw "connection refused"), [.queryUsers]) ∧
    authenticateUser extW envFaultW (.wellFormed tokW)
      = (.ok (none, none), [.queryUsers]) :=
  ⟨rfl, rfl, rfl⟩

/-- C1 amended: when the RESOLVE transaction inside `AuthenticateUser`'s
keyfunc fails — for any reason, including a storage/connectivity fault that
the keyfunc wraps as a `TransactionError` — the final
`if err != nil || !token.Valid` check swallows the error and
`AuthenticateUser` returns the plain not-authenticated result (nil user, nil
error); the fault is NOT propagated to the caller, which cannot distinguish
it from a legitimate auth rejection. -/
theorem c1_amended_resolve_fault_swallowed (ext : Ext) (env : DBEnv) (tok : Token)
    (hm : tok.method = .ecdsa) (err : CallbackErr) (effs : List Effect)
    (h : resolveTx env (claimString tok.claims "uid") (claimString tok.claims "sid")
          = (.error err, effs)) :
    (authenticateUser ext env (.wellFormed tok)).1 = .ok (none, none) := by
  simp [authenticateUser, hm, h]

/-- Witness for C1's amended statement: the connectivity-fault environment. -/
theorem c1_amended_witness :
    resolveTx envFaultW (claimString tokW.claims "uid") (claimString tokW.claims "sid")
      = (.error (.raw "connection refused"), [.queryUsers]) ∧
    (authenticateUser extW envFaultW (.wellFormed tokW)).1 = .ok (none, none) :=
  ⟨rfl,
   c1_amended_resolve_fault_swallowed extW envFaultW tokW rfl
     (.raw "connection refused") [.queryUsers] rfl⟩

/-- C2: every session secret that is not valid hex, or whose decoded bytes
fail PKIX parsing, or whose parsed key is not an ECDSA key, makes both
`CreateUser` (Register) and `CreateSession` (Login) fail with `BadDataError`
(BadCredentialFormat) with an empty storage-effect trace — i.e. before any
storage access — and the outcome is independent of the submitted password,
so no credential check happens first either. -/
theorem c2_bad_secret_rejected_early (ext : Ext) (env : DBEnv)
    (email username nickname biography password password' identity secret : String)
    (fresh : FreshIDs) (fsid : String) (now : Nat)
    (h : secretRejected ext secret) :
    createUser ext env email username nickname biography password secret fresh now
      = (.error .badData, []) ∧
    createSession ext env identity password secret fsid now = (.error .badData, []) ∧
    createUser ext env email username nickname biography password' secret fresh now
      = createUser ext env email username nickname biography password secret fresh now ∧
    createSession ext env identity password' secret fsid now
      = createSession ext env identity password secret fsid now := by
  have hcu : ∀ pw,
      createUser ext env email username nickname biography pw secret fresh now
        = (.error .badData, []) := by
    intro pw
    rcases h with h | ⟨d, hd, h | ⟨k, hk, h⟩⟩
    · simp [createUser, h]
    · simp [createUser, hd, h]
    · simp [createUser, hd, hk, h]
  have hcs : ∀ pw,
      createSession ext env identity pw secret fsid now = (.error .badData, []) := by
    intro pw
    rcases h with h | ⟨d, hd, h | ⟨k, hk, h⟩⟩
    · simp [createSession, h]
    · simp [createSession, hd, h]
    · simp [createSession, hd, hk, h]
  exact ⟨hcu password, hcs password,
    by rw [hcu password, hcu password'],
    by rw [hcs password, hcs password']⟩

/-- Witness for C2: the hex string "01" decodes to a blob that parses as an
RSA key, and both entry points reject it with `BadDataError` at once. -/
theorem c2_witness :
    secretRejected extW "01" ∧
    createUser extW envW "a@b.cd" "alice" "" "" "password1" "01" freshW 0
      = (.error .badData, []) ∧
    createSession extW envW "alice" "password1" "01" sidW 0 = (.error .badData, []) :=
  ⟨Or.inr ⟨[1], rfl, Or.inr ⟨.rsa 1, rfl, rfl⟩⟩,
   (c2_bad_secret_rejected_early extW envW "a@b.cd" "alice" "" "" "password1" "password1"
      "alice" "01" freshW sidW 0 (Or.inr ⟨[1], rfl, Or.inr ⟨.rsa 1, rfl, rfl⟩⟩)).1,
   (c2_bad_secret_rejected_early extW envW "a@b.cd" "alice" "" "" "password1" "password1"
      "alice" "01" freshW sidW 0 (Or.inr ⟨[1], rfl, Or.inr ⟨.rsa 1, rfl, rfl⟩⟩)).2.1⟩

/-- C9: token verification mutates nothing — every storage effect of
`AuthenticateUser` is a read and replaying its effect trace leaves the
database unchanged — so when a valid token authenticates as user `u`, a
second verification of the same token against the post-verification state
yields the same authenticated identity `u` (same user id and same attached
session id) again. -/
theorem c9_verification_idempotent_readonly (ext : Ext) (env : DBEnv) (input : ParseInput)
    (u : User) (h : (authenticateUser ext env input).1 = .ok (some u, none)) :
    (∀ e ∈ (authenticateUser ext env input).2, e.isRead = true) ∧
    runEffects env.db (authenticateUser ext env input).2 = env.db ∧
    (authenticateUser ext
        { env with db := runEffects env.db (authenticateUser ext env input).2 } input).1
      = .ok (some u, none) := by
  have hr := authenticateUser_effects ext env input
  have hdb : runEffects env.db (authenticateUser ext env input).2 = env.db :=
    runEffects_of_reads _ _ hr
  refine ⟨hr, hdb, ?_⟩
  rw [hdb]
  exact h

/-- Witness for C9: a concrete valid token over `dbW` authenticates as `userW`
with the session id attached, and does so again on the post-verification
state. -/
theorem c9_witness :
    (authenticateUser extW envW (.wellFormed tokW)).1
      = .ok (some { userW with sessionID := sidW }, none) ∧
    (authenticateUser extW
        { envW with db := runEffects envW.db (authenticateUser extW envW (.wellFormed tokW)).2 }
        (.wellFormed tokW)).1
      = .ok (some { userW with sessionID := sidW }, none) :=
  ⟨rfl,
   (c9_verification_idempotent_readonly extW envW (.wellFormed tokW)
      { userW with sessionID := sidW } rfl).2.2⟩

/-- C3: password validation in Register, under otherwise-valid inputs (an
accepted ECDSA session secret, a valid email, a username of at least 3
bytes): a password below 8 bytes fails with `PasswordTooSimpleError` — both
in `validateAndEncryptPassword` and at the `CreateUser` boundary; a password
above 64 bytes fails with `BadDataError` at both; passwords of exactly 8 and
exactly 64 bytes pass validation (they are bcrypt-hashed), and registration
proceeds to a created user carrying the hash when the store is healthy. -/
theorem c3_password_length_bounds (ext : Ext) (env : DBEnv)
    (email username nickname biography password secret : String)
    (fresh : FreshIDs) (now : Nat) (d : List Nat) (k : PublicKey)
    (hhex : hexDecode secret = some d) (hk : ext.parsePKIX d = some k)
    (hec : k.isEcdsa = true) (hemail : ext.emailCheck (goTrim email) = none)
    (huser : 3 ≤ goLen (goTrim username)) :
    (goLen password < 8 →
      validateAndEncryptPassword ext password = .error .passwordTooSimple ∧
      (createUser ext env email username nickname biography password secret fresh now).1
        = .error .passwordTooSimple) ∧
    (goLen password > 64 →
      validateAndEncryptPassword ext password = .error .badData ∧
      (createUser ext env email username nickname biography password secret fresh now).1
        = .error .badData) ∧
    ((goLen password = 8 ∨ goLen password = 64) →
      ∀ hash, ext.bcryptHash password = some hash →
        validateAndEncryptPassword ext password = .ok hash ∧
        (env.execFault = none →
          ∃ u, (createUser ext env email username nickname biography password secret
                  fresh now).1 = .ok u ∧
            u.encryptedPassword.string = hash)) := by
  have hu3 : ¬ goLen (goTrim username) < 3 := by omega
  refine ⟨fun hlt => ?_, fun hgt => ?_, fun hlen hash hbc => ?_⟩
  · have hv : validateAndEncryptPassword ext password = .error .passwordTooSimple := by
      simp [validateAndEncryptPassword, hlt]
    exact ⟨hv, by
      simp [createUser, hhex, hk, hec, validateEmailFormat, hemail, hu3, hv]⟩
  · have hv : validateAndEncryptPassword ext password = .error .badData := by
      simp [validateAndEncryptPassword, hgt, show ¬ goLen password < 8 by omega]
    exact ⟨hv, by
      simp [createUser, hhex, hk, hec, validateEmailFormat, hemail, hu3, hv]⟩
  · have h8 : ¬ goLen password < 8 := by omega
    have h64 : ¬ goLen password > 64 := by omega
    have hv : validateAndEncryptPassword ext password = .ok hash := by
      simp [validateAndEncryptPassword, h8, h64, hbc]
    refine ⟨hv, fun hexec => ?_⟩
    have hrun : (createUser ext env email username nickname biography password secret
        fresh now).1 = .ok
          { userID := fresh.userID
            email := { string := goTrim email, valid := true }
            username := goTrim username
            nickname := if goTrim nickname == "" then goTrim username else goTrim nickname
            biography := biography
            encryptedPassword := { string := hash, valid := true }
            githubID := { string := "", valid := false }
            groupsCount := 0
            createdAt := now
            updatedAt := now
            sessionID := fresh.sessionID } := by
      simp [createUser, hhex, hk, hec, validateEmailFormat, hemail, hu3, hv, addSession, hexec]
    exact ⟨_, hrun, rfl⟩

/-- Witness for C3: with the concrete oracle, an 8-byte password passes
validation and registration succeeds, while a 7-byte one fails with
`PasswordTooSimpleError`. -/
theorem c3_witness :
    validateAndEncryptPassword extW "password" = .ok "bc:password" ∧
    (∃ u, (createUser extW envEmptyW "a@b.cd" "alice" "" "" "password" "00" freshW 0).1
        = .ok u ∧ u.encryptedPassword.string = "bc:password") ∧
    (createUser extW envEmptyW "a@b.cd" "alice" "" "" "short12" "00" freshW 0).1
      = .error .passwordTooSimple :=
  ⟨((c3_password_length_bounds extW envEmptyW "a@b.cd" "alice" "" "" "password" "00" freshW 0
      [0] (.ecdsa 0) rfl rfl rfl rfl (by decide)).2.2 (Or.inl rfl) "bc:password" rfl).1,
   ((c3_password_length_bounds extW envEmptyW "a@b.cd" "alice" "" "" "password" "00" freshW 0
      [0] (.ecdsa 0) rfl rfl rfl rfl (by decide)).2.2 (Or.inl rfl) "bc:password" rfl).2 rfl,
   ((c3_password_length_bounds extW envEmptyW "a@b.cd" "alice" "" "" "short12" "00" freshW 0
      [0] (.ecdsa 0) rfl rfl rfl rfl (by decide)).1 (by decide)).2⟩

/-- C4 counterexample: `CreateUser` accepts and stores the mixed-case
username "Alice" unchanged, but the identity lookup lower-cases only its
input and then compares exactly, so no case variant of the registered
username — not even the original spelling "Alice" — resolves the user: the
lookup is not case-insensitive with respect to the stored username. -/
theorem c4_counterexample :
    (c4RegisterRun.1.map fun u => u.username) = .ok "Alice" ∧
    c4EnvAfter.db.users.length = 1 ∧
    readUserByUsernameOrEmail c4EnvAfter "Alice" = (.ok none, [.queryUsers]) ∧
    readUserByUsernameOrEmail c4EnvAfter "ALICE" = (.ok none, [.queryUsers]) ∧
    readUserByUsernameOrEmail c4EnvAfter "alice" = (.ok none, [.queryUsers]) :=
  ⟨rfl, rfl, rfl, rfl, rfl⟩

/-- C4 amended: the identity lookup trims and lower-cases its input and then
compares it for exact, case-sensitive equality against the stored username
and email columns; an identity therefore resolves a stored user exactly when
the lower-cased trimmed input equals the stored username (or the stored
non-NULL email) — which makes lookups case-insensitive precisely for
lower-case stored credentials — and any input shorter than 3 bytes after
trimming and lower-casing returns None without touching storage. -/
theorem c4_amended_lookup_lowercases_input (env : DBEnv) (identity : String) (u : User)
    (hdb : env.db.users = [u]) (hfault : env.userQueryFault = none) :
    (goLen (goToLower (goTrim identity)) < 3 →
      readUserByUsernameOrEmail env identity = (.ok none, [])) ∧
    (3 ≤ goLen (goToLower (goTrim identity)) →
      (goToLower (goTrim identity) = u.username ∨
        (u.email.valid = true ∧ goToLower (goTrim identity) = u.email.string)) →
      readUserByUsernameOrEmail env identity = (.ok (some u), [.queryUsers])) := by
  constructor
  · intro h
    simp [readUserByUsernameOrEmail, h]
  · intro h3 hmatch
    have hid : (u.username == goToLower (goTrim identity) ||
        (u.email.valid && u.email.string == goToLower (goTrim identity))) = true := by
      rcases hmatch with h | ⟨hv, h⟩
      · simp [← h]
      · simp [← h, hv]
    simp [readUserByUsernameOrEmail, findUserByIdentity, hfault, hdb, List.find?, hid,
      show ¬ goLen (goToLower (goTrim identity)) < 3 by omega]

/-- Witness for C4's amended statement: a shouted, padded case variant of the
stored lower-case email resolves `userW`. -/
theorem c4_amended_witness :
    (3 ≤ goLen (goToLower (goTrim " ALICE@EXAMPLE.COM "))) ∧
    readUserByUsernameOrEmail envW " ALICE@EXAMPLE.COM " = (.ok (some userW), [.queryUsers]) :=
  ⟨by decide,
   (c4_amended_lookup_lowercases_input envW " ALICE@EXAMPLE.COM " userW rfl rfl).2
     (by decide) (Or.inr ⟨rfl, rfl⟩)⟩

/-- C5: Login with an accepted ECDSA session secret: when the identity
resolves to no user, `CreateSession` fails with `IdentityNonExistError`; when
it resolves to a user whose stored hash rejects the password, it fails with
`InvalidPasswordError`; in both cases the effect trace is the lookup's reads
only, so replaying it leaves the sessions table (indeed the whole database)
unchanged — no session row is created. -/
theorem c5_login_failures_create_no_session (ext : Ext) (env : DBEnv)
    (identity password secret fsid : String) (now : Nat) (d : List Nat) (k : PublicKey)
    (hhex : hexDecode secret = some d) (hk : ext.parsePKIX d = some k)
    (hec : k.isEcdsa = true) :
    ((readUserByUsernameOrEmail env identity).1 = .ok none →
      createSession ext env identity password secret fsid now
        = (.error .identityNonExist, (readUserByUsernameOrEmail env identity).2) ∧
      runEffects env.db (readUserByUsernameOrEmail env identity).2 = env.db) ∧
    (∀ u, (readUserByUsernameOrEmail env identity).1 = .ok (some u) →
      ext.bcryptCompare u.encryptedPassword.string password = false →
      createSession ext env identity password secret fsid now
        = (.error .invalidPassword, (readUserByUsernameOrEmail env identity).2) ∧
      runEffects env.db (readUserByUsernameOrEmail env identity).2 = env.db) := by
  have hro : runEffects env.db (readUserByUsernameOrEmail env identity).2 = env.db :=
    runEffects_of_reads _ _ (readUserByUsernameOrEmail_effects env identity)
  constructor
  · intro h1
    have hfull : readUserByUsernameOrEmail env identity
        = (.ok none, (readUserByUsernameOrEmail env identity).2) := by
      rw [← h1]
    refine ⟨?_, hro⟩
    simp only [createSession, hhex, hk, hec]
    rw [hfull]
    simp
  · intro u h1 hbc
    have hfull : readUserByUsernameOrEmail env identity
        = (.ok (some u), (readUserByUsernameOrEmail env identity).2) := by
      rw [← h1]
    refine ⟨?_, hro⟩
    simp only [createSession, hhex, hk, hec]
    rw [hfull]
    simp [hbc]

/-- Witness for C5: over `dbW`, the unknown identity "nobody" fails with
`IdentityNonExistError` and the known identity "alice" with a wrong password
fails with `InvalidPasswordError`, neither creating a session. -/
theorem c5_witness :
    createSession extW envW "nobody" "password1" "00" sidW 0
      = (.error .identityNonExist, [.queryUsers]) ∧
    createSession extW envW "alice" "wrongpass" "00" sidW 0
      = (.error .invalidPassword, [.queryUsers]) ∧
    runEffects envW.db [.queryUsers] = envW.db :=
  ⟨by
    have h := (c5_login_failures_create_no_session extW envW "nobody" "password1" "00" sidW 0
      [0] (.ecdsa 0) rfl rfl rfl).1 rfl
    exact h.1,
   by
    have h := (c5_login_failures_create_no_session extW envW "alice" "wrongpass" "00" sidW 0
      [0] (.ecdsa 0) rfl rfl rfl).2 userW rfl rfl
    exact h.1,
   rfl⟩

/-- C10: `UpdateProfile` with both arguments blank after trimming succeeds at
once with no storage effect and an unchanged receiver. Otherwise the receiver
changes only in nickname (kept when that argument is blank, else set to the
trimmed argument), biography (likewise) and updated_at (stamped to now) —
every other field is preserved; and the issued UPDATE leaves the sessions
table unchanged, keeps every user row with a different user_id in place
verbatim, and preserves every column other than nickname, biography and
updated_at of every row. -/
theorem c10_update_profile_frame (env : DBEnv) (u : User) (nickname biography : String)
    (now : Nat) :
    (goTrim nickname = "" → goTrim biography = "" →
      updateProfile env u nickname biography now = (.ok (), u, [])) ∧
    (¬(goTrim nickname = "" ∧ goTrim biography = "") →
      User.sameExceptProfile (updateProfile env u nickname biography now).2.1 u ∧
      (goTrim nickname = "" →
        (updateProfile env u nickname biography now).2.1.nickname = u.nickname) ∧
      (goTrim nickname ≠ "" →
        (updateProfile env u nickname biography now).2.1.nickname = goTrim nickname) ∧
      (goTrim biography = "" →
        (updateProfile env u nickname biography now).2.1.biography = u.biography) ∧
      (goTrim biography ≠ "" →
        (updateProfile env u nickname biography now).2.1.biography = goTrim biography) ∧
      (updateProfile env u nickname biography now).2.1.updatedAt = now ∧
      (runEffects env.db (updateProfile env u nickname biography now).2.2).sessions
        = env.db.sessions ∧
      (∀ v ∈ env.db.users, v.userID ≠ u.userID →
        v ∈ (runEffects env.db (updateProfile env u nickname biography now).2.2).users) ∧
      (∀ v ∈ env.db.users,
        ∃ w ∈ (runEffects env.db (updateProfile env u nickname biography now).2.2).users,
          User.sameExceptProfile w v)) := by
  constructor
  · intro h1 h2
    have hcond : (goLen (goTrim nickname) == 0 && goLen (goTrim biography) == 0) = true := by
      rw [h1, h2]; rfl
    simp [updateProfile, hcond]
  · intro hne
    have hcond : (goLen (goTrim nickname) == 0 && goLen (goTrim biography) == 0) = false := by
      by_cases h1 : goTrim nickname = ""
      · by_cases h2 : goTrim biography = ""
        · exact absurd ⟨h1, h2⟩ hne
        · have h2z : goLen (goTrim biography) ≠ 0 := fun hz => h2 ((goLen_eq_zero _).mp hz)
          simp [h2z]
      · have h1z : goLen (goTrim nickname) ≠ 0 := fun hz => h1 ((goLen_eq_zero _).mp hz)
        simp [h1z]
    have hcore : User.sameExceptProfile (updateProfile env u nickname biography now).2.1 u := by
      unfold User.sameExceptProfile
      rcases hex : env.execFault with _ | m <;>
        (simp [updateProfile, hcond, hex]
         repeat' split
         all_goals simp)
    refine ⟨hcore, ?_, ?_, ?_, ?_, ?_, ?_, ?_, ?_⟩
    · intro h1
      have hbne : (goTrim nickname != "") = false := by simp [h1]
      rcases hex : env.execFault with _ | m <;>
        (simp [updateProfile, hcond, hbne, hex]
         repeat' split
         all_goals simp)
    · intro h1
      have hbne : (goTrim nickname != "") = true := by simp [h1]
      rcases hex : env.execFault with _ | m <;>
        (simp [updateProfile, hcond, hbne, hex]
         repeat' split
         all_goals simp)
    · intro h2
      have hbne : (goTrim biography != "") = false := by simp [h2]
      rcases hex : env.execFault with _ | m <;>
        (simp [updateProfile, hcond, hbne, hex]
         repeat' split
         all_goals simp)
    · intro h2
      have hbne : (goTrim biography != "") = true := by simp [h2]
      rcases hex : env.execFault with _ | m <;>
        simp [updateProfile, hcond, hbne, hex]
    · rcases hex : env.execFault with _ | m <;>
        simp [updateProfile, hcond, hex]
    · rcases hex : env.execFault with _ | m <;>
        simp [updateProfile, hcond, hex, runEffects, applyEffect]
    · intro v hv hvne
      rcases hex : env.execFault with _ | m
      · have h22 : (updateProfile env u nickname biography now).2.2
            = [.updateProfile (updateProfile env u nickname biography now).2.1.userID
                (updateProfile env u nickname biography now).2.1.nickname
                (updateProfile env u nickname biography now).2.1.biography now] := by
          simp [updateProfile, hcond, hex]
        rw [h22, runEffects_singleton]
        exact mem_map_updateRow_of_ne hv (by rw [hcore.1]; exact hvne)
      · have h22 : (updateProfile env u nickname biography now).2.2 = [] := by
          simp [updateProfile, hcond, hex]
        rw [h22]
        exact hv
    · intro v hv
      rcases hex : env.execFault with _ | m
      · have h22 : (updateProfile env u nickname biography now).2.2
            = [.updateProfile (updateProfile env u nickname biography now).2.1.userID
                (updateProfile env u nickname biography now).2.1.nickname
                (updateProfile env u nickname biography now).2.1.biography now] := by
          simp [updateProfile, hcond, hex]
        rw [h22, runEffects_singleton]
        exact exists_map_updateRow_sameCore hv
      · have h22 : (updateProfile env u nickname biography now).2.2 = [] := by
          simp [updateProfile, hcond, hex]
        rw [h22]
        exact ⟨v, hv, by simp [User.sameExceptProfile]⟩

/-- Witness for C10: blank arguments leave `userW` and the store untouched;
updating only the nickname to "Bob" keeps the biography and email. -/
theorem c10_witness :
    updateProfile envW userW " " "" 5 = (.ok (), userW, []) ∧
    (updateProfile envW userW "Bob" "" 5).2.1.nickname = "Bob" ∧
    (updateProfile envW userW "Bob" "" 5).2.1.biography = userW.biography ∧
    (updateProfile envW userW "Bob" "" 5).2.1.email = userW.email ∧
    (updateProfile envW userW "Bob" "" 5).2.1.updatedAt = 5 := by
  have h := (c10_update_profile_frame envW userW "Bob" "" 5).2 (by decide)
  exact ⟨(c10_update_profile_frame envW userW " " "" 5).1 rfl rfl,
    h.2.2.1 (by decide), h.2.2.2.1 rfl, h.1.2.1, h.2.2.2.2.2.1⟩

end Satellity
